import Mathlib

/-!
# Verification of the `bottom` data-harvesting core (`src/app/data_harvester.rs`)

A shallow embedding of the metrics-harvesting core: the `Data` snapshot, the
`DataCollector` state, and the `init` / `update_data` / `cleanup` operations,
on the Linux x86-64 (native) compilation path that the source file selects.
Timestamps (`Instant`) are modelled as natural numbers of milliseconds;
floating-point percentages are modelled as rationals.

The probe modules (`cpu.rs`, `mem.rs`, `network.rs`, `processes.rs`,
`disks.rs`, `temperature.rs`, `battery_harvester.rs`) are not part of the
excerpt; their behaviour is modelled from the specification where a claim
needs it, and each such definition is marked `Modelled from the spec`.
The orchestration in `data_harvester.rs` itself is translated directly.
-/

deriving instance DecidableEq for Except

namespace Harvester

/-- A probe-level failure (the `Err` side of a probe's `Result`). -/
structure ProbeError where
  msg : String
deriving Repr, DecidableEq

/-- Modelled from the spec: the `battery::Manager` handle from the external
battery crate; its internals are irrelevant to the core, only its presence. -/
structure Manager where
  handle : Nat
deriving Repr, DecidableEq

/-- Modelled from the spec: one battery device from the external battery crate. -/
structure Battery where
  device : Nat
deriving Repr, DecidableEq

/-- Modelled from the spec: a computed battery reading
(`battery_harvester::BatteryHarvest`). -/
structure BatteryHarvest where
  charge_percent : ℚ
deriving Repr, DecidableEq

/-- Modelled from the spec: a memory/swap reading (`mem::MemHarvest`). -/
structure MemHarvest where
  mem_total_in_mb : ℕ
  mem_used_in_mb : ℕ
deriving Repr, DecidableEq

/-- Modelled from the spec: a temperature-sensor reading
(`temperature::TempHarvest`). -/
structure TempHarvest where
  component_name : String
  temperature : ℚ
deriving Repr, DecidableEq

/-- Modelled from the spec: the configured temperature unit
(`temperature::TemperatureType`). -/
inductive TemperatureType
  | celsius
  | fahrenheit
  | kelvin
deriving Repr, DecidableEq

/-- Modelled from the spec: a disk-usage reading (`disks::DiskHarvest`). -/
structure DiskHarvest where
  name : String
  used_space : ℕ
  total_space : ℕ
deriving Repr, DecidableEq

/-- Modelled from the spec: per-device I/O readings (`disks::IOHarvest`),
a mapping from device name to cumulative read/write byte counts. -/
def IOHarvest : Type := List (String × ℕ × ℕ)
deriving Repr, DecidableEq

/-- Modelled from the spec: a per-process reading (`processes::ProcessHarvest`):
process id, CPU percentage attributed over the elapsed interval, memory usage. -/
structure ProcessHarvest where
  pid : ℕ
  cpu_usage_percent : ℚ
  mem_usage_percent : ℚ
deriving Repr, DecidableEq

/-- Modelled from the spec: `processes::PrevProcDetails`, the previous total CPU
ticks observed for one process id, owned exclusively by the collector. -/
structure PrevProcDetails where
  total_ticks : ℚ
deriving Repr, DecidableEq

/-- Modelled from the spec: a CPU reading (`cpu::CpuHarvest`): per-logical-core
usage percentages, or a single averaged value if averaging is configured. -/
def CpuHarvest : Type := List ℚ
deriving Repr, DecidableEq

/-- Modelled from the spec: a network reading (`network::NetworkHarvest`):
receive/transmit bytes-per-second plus cumulative totals carried forward. -/
structure NetworkHarvest where
  rx : ℚ
  tx : ℚ
  total_rx : ℕ
  total_tx : ℕ
deriving Repr, DecidableEq

/-- Modelled from the spec: `NetworkHarvest::first_run_cleanup`, the network
probe's own first-run reset: the per-cycle rates are zeroed so the first real
rate is not reported as a huge spike, while the cumulative totals (the tracked
baseline) are kept. -/
def NetworkHarvest.first_run_cleanup (n : NetworkHarvest) : NetworkHarvest :=
  { n with rx := 0, tx := 0 }

/-- The capability-flag set from `layout_manager::UsedWidgets` (not in the
excerpt): one active-domain flag per harvested domain, exactly the flags the
orchestration code reads. -/
structure UsedWidgets where
  use_cpu : Bool
  use_mem : Bool
  use_net : Bool
  use_proc : Bool
  use_disk : Bool
  use_temp : Bool
  use_battery : Bool
deriving Repr, DecidableEq

/-- The `Data` snapshot aggregate of `data_harvester.rs`: the latest value (or
absence) for every domain plus the collection timestamp. -/
structure Data where
  last_collection_time : ℕ
  cpu : Option CpuHarvest
  memory : Option MemHarvest
  swap : Option MemHarvest
  temperature_sensors : Option (List TempHarvest)
  network : Option NetworkHarvest
  list_of_processes : Option (List ProcessHarvest)
  disks : Option (List DiskHarvest)
  io : Option IOHarvest
  list_of_batteries : Option (List BatteryHarvest)
deriving Repr, DecidableEq

/-- `Data::cleanup` from `data_harvester.rs`: sets `io`, `temperature_sensors`,
`list_of_processes`, `disks`, `memory`, `swap` and `cpu` to `None`, and if a
network reading is present, applies its `first_run_cleanup` in place. -/
def Data.cleanup (d : Data) : Data :=
  let d := { d with io := none, temperature_sensors := none,
                    list_of_processes := none, disks := none,
                    memory := none, swap := none, cpu := none }
  match d.network with
  | some network => { d with network := some network.first_run_cleanup }
  | none => d

/-- The `DataCollector` of `data_harvester.rs` on the Linux path: the snapshot,
the delta-tracking state (`pid_mapping`, `prev_idle`, `prev_non_idle`,
`total_rx`, `total_tx`, `last_collection_time`), the cached memory total, the
configuration, and the long-lived battery handles.  The `sys: System` handle
is pure I/O state and is modelled by the per-cycle environment instead. -/
structure DataCollector where
  data : Data
  pid_mapping : List (ℕ × PrevProcDetails)
  prev_idle : ℚ
  prev_non_idle : ℚ
  mem_total_kb : ℕ
  temperature_type : TemperatureType
  use_current_cpu_total : Bool
  last_collection_time : ℕ
  total_rx : ℕ
  total_tx : ℕ
  show_average_cpu : Bool
  widgets_to_harvest : UsedWidgets
  battery_manager : Option Manager
  battery_list : Option (List Battery)
  page_file_size_kb : ℕ
deriving Repr, DecidableEq

/-- Modelled from the spec (section 4.3): the overall CPU usage percentage from
the idle and non-idle tick deltas: `dni / (dni + di) * 100`, clamped to
`[0, 100]`; if the total delta is zero, report `0` rather than dividing
by zero. -/
def cpu_usage_percentage (dni di : ℚ) : ℚ :=
  if dni + di = 0 then 0 else min 100 (max 0 (dni / (dni + di) * 100))

/-- Modelled from the spec (section 4.3): the Linux clock tick rate used to
convert per-process tick deltas into seconds of CPU time. -/
def clock_ticks_per_second : ℚ := 100

/-- Modelled from the spec (section 4.3): per-process CPU percentage:
`(current_total_ticks - previous_total_ticks) / (elapsed * ticks_per_second) * 100`
against the previous record in the collector's `pid_mapping`; a process with no
previous record reports `0` for this cycle. -/
def proc_cpu_percentage (pid_mapping : List (ℕ × PrevProcDetails)) (pid : ℕ)
    (ticks : ℚ) (elapsed_secs : ℕ) : ℚ :=
  match pid_mapping.lookup pid with
  | some prev => (ticks - prev.total_ticks) /
      ((elapsed_secs : ℚ) * clock_ticks_per_second) * 100
  | none => 0

/-- One raw per-process observation handed to the process probe by the OS:
the process id, its cumulative total CPU ticks, and its memory usage in KB. -/
structure ProcObservation where
  pid : ℕ
  total_ticks : ℚ
  mem_usage_kb : ℕ
deriving Repr, DecidableEq

/-- The raw data a successful run of the process probe reads from `/proc`:
the cumulative idle and non-idle CPU tick counters plus one observation per
live process. -/
structure ProcSample where
  cur_idle : ℚ
  cur_non_idle : ℚ
  procs : List ProcObservation
deriving Repr, DecidableEq

/-- The result of `processes::linux_processes`: the computed process list and
the updated delta-tracking state it wrote through its `&mut` parameters. -/
structure ProcOutcome where
  list : List ProcessHarvest
  new_prev_idle : ℚ
  new_prev_non_idle : ℚ
  new_pid_mapping : List (ℕ × PrevProcDetails)
deriving Repr, DecidableEq

/-- Modelled from the spec (sections 4.3, 4.6): `processes::linux_processes`.
On a failed `/proc` read it returns the error with the delta state untouched;
on success it computes each process's CPU percentage against `pid_mapping`
(section 4.3), stores the current idle/non-idle counters as the new previous
values, and rebuilds `pid_mapping` to contain exactly the process ids seen in
the current sample. -/
def linux_processes (_prev_idle _prev_non_idle : ℚ)
    (pid_mapping : List (ℕ × PrevProcDetails)) (_use_current_cpu_total : Bool)
    (elapsed_secs : ℕ) (mem_total_kb : ℕ) (_page_file_size_kb : ℕ)
    (input : Except ProbeError ProcSample) : Except ProbeError ProcOutcome :=
  match input with
  | Except.error e => Except.error e
  | Except.ok s =>
      Except.ok
        { list := s.procs.map (fun o =>
            { pid := o.pid
              cpu_usage_percent :=
                proc_cpu_percentage pid_mapping o.pid o.total_ticks elapsed_secs
              mem_usage_percent :=
                if mem_total_kb = 0 then 0
                else (o.mem_usage_kb : ℚ) / (mem_total_kb : ℚ) * 100 })
          new_prev_idle := s.cur_idle
          new_prev_non_idle := s.cur_non_idle
          new_pid_mapping := s.procs.map (fun o => (o.pid, ⟨o.total_ticks⟩)) }

/-- Modelled from the spec (section 4.3): `cpu::get_cpu_data_list`: report the
per-core usage percentages as sampled, or a single averaged figure when
`show_average_cpu` is configured. -/
def get_cpu_data_list (sample : List ℚ) (show_average_cpu : Bool) : CpuHarvest :=
  if show_average_cpu then [sample.sum / (sample.length : ℚ)] else sample

/-- Modelled from the spec (section 4.6): `battery_harvester::refresh_batteries`
refreshes the cached device list in place and computes one reading per device;
the readings come from the external devices, modelled by the cycle
environment. -/
def refresh_batteries (_manager : Manager) (_battery_list : List Battery)
    (device_readings : List BatteryHarvest) : List BatteryHarvest :=
  device_readings

/-- The per-cycle rate computation for one cumulative byte counter, modelled
from the spec (section 4.4): a decrease is a counter reset, handled by taking
the current value as the fresh baseline and reporting a zero rate; otherwise
rate is `(current - previous) / elapsed_seconds` and the baseline advances to
the current value. -/
structure NetRate where
  rate : ℚ
  baseline : ℕ
deriving Repr, DecidableEq

/-- Modelled from the spec (section 4.4): one counter's rate-and-baseline step. -/
def net_rate_update (prev cur : ℕ) (elapsed_secs : ℚ) : NetRate :=
  if cur < prev then { rate := 0, baseline := cur }
  else { rate := ((cur - prev : ℕ) : ℚ) / elapsed_secs, baseline := cur }

/-- Modelled from the spec (sections 4.4, 4.5): the Linux network probe
`network::non_arm_or_windows_network_data`.  When the network domain is
disabled it skips work and returns no reading; when the underlying counter
read fails it returns no reading; otherwise it computes both rates with
`net_rate_update` over the elapsed wall-clock time since the previous cycle
and carries the current cumulative totals forward. -/
def non_arm_or_windows_network_data (last_collection_time : ℕ)
    (total_rx total_tx : ℕ) (current_instant : ℕ) (use_net : Bool)
    (counters : Option (ℕ × ℕ)) : Option NetworkHarvest :=
  if use_net then
    match counters with
    | none => none
    | some (cur_rx, cur_tx) =>
        let elapsed : ℚ := ((current_instant - last_collection_time : ℕ) : ℚ) / 1000
        let r := net_rate_update total_rx cur_rx elapsed
        let t := net_rate_update total_tx cur_tx elapsed
        some { rx := r.rate, tx := t.rate, total_rx := cur_rx, total_tx := cur_tx }
  else none

/-- Modelled from the spec (section 4.5): a fan-out probe with the uniform
shape `probe(enabled, underlying) -> Result<Option<Reading>, ProbeError>`:
when the domain is disabled the probe skips work entirely and returns an
absent reading; otherwise it returns whatever the underlying call produced
(`Ok(None)` for successful-but-empty, `Err` for a probe-level failure). -/
def gated_probe {α : Type} (enabled : Bool)
    (underlying : Except ProbeError (Option α)) : Except ProbeError (Option α) :=
  if enabled then underlying else Except.ok none

/-- The external inputs one `update_data` cycle consumes: the instant sampled
once in the cycle, and what each probe's underlying OS/library call would
observe this cycle.  Failures of the fallible probes are the `Except.error`
side; `Option` models calls that yield no reading. -/
structure UpdateEnv where
  now : ℕ
  cpu_sample : List ℚ
  battery_sample : List BatteryHarvest
  proc_input : Except ProbeError ProcSample
  net_counters : Option (ℕ × ℕ)
  mem_input : Except ProbeError (Option MemHarvest)
  swap_input : Except ProbeError (Option MemHarvest)
  disk_input : Except ProbeError (Option (List DiskHarvest))
  io_input : Except ProbeError (Option IOHarvest)
  temp_input : Except ProbeError (Option (List TempHarvest))
deriving Repr, DecidableEq

/-- The CPU step of `update_data` (source lines 209-218): if the CPU domain is
active, store the computed CPU reading. -/
def phase_cpu (st : DataCollector) (env : UpdateEnv) : DataCollector :=
  if st.widgets_to_harvest.use_cpu then
    { st with data := { st.data with
        cpu := some (get_cpu_data_list env.cpu_sample st.show_average_cpu) } }
  else st

/-- The battery step of `update_data` (source lines 221-236): if both the
cached manager handle and the cached device list are present, refresh and
store the battery readings; otherwise do nothing. -/
def phase_battery (st : DataCollector) (env : UpdateEnv) : DataCollector :=
  match st.battery_manager, st.battery_list with
  | some battery_manager, some battery_list =>
      { st with data := { st.data with
          list_of_batteries :=
            some (refresh_batteries battery_manager battery_list
              env.battery_sample) } }
  | _, _ => st

/-- The elapsed whole seconds handed to the process probe (source lines
250-252): `current_instant.duration_since(last_collection_time).as_secs()`. -/
def proc_elapsed_secs (st : DataCollector) (env : UpdateEnv) : ℕ :=
  (env.now - st.last_collection_time) / 1000

/-- The outcome of the process probe for this cycle: absent when the process
domain is inactive or the probe failed (source lines 238-276). -/
def proc_result (st : DataCollector) (env : UpdateEnv) : Option ProcOutcome :=
  if st.widgets_to_harvest.use_proc then
    match linux_processes st.prev_idle st.prev_non_idle st.pid_mapping
        st.use_current_cpu_total (proc_elapsed_secs st env)
        st.mem_total_kb st.page_file_size_kb env.proc_input with
    | Except.ok outcome => some outcome
    | Except.error _ => none
  else none

/-- The process step of `update_data` (source lines 238-285): on a successful
probe, store the process list and the delta state the probe wrote through its
`&mut` parameters; on failure or when inactive, change nothing. -/
def phase_proc (st : DataCollector) (env : UpdateEnv) : DataCollector :=
  match proc_result st env with
  | some outcome =>
      { st with
          data := { st.data with list_of_processes := some outcome.list }
          prev_idle := outcome.new_prev_idle
          prev_non_idle := outcome.new_prev_non_idle
          pid_mapping := outcome.new_pid_mapping }
  | none => st

/-- Recording the joined network result (source lines 387-401): if a reading
was produced, advance the tracked totals and store it; otherwise leave the
network field and the totals untouched. -/
def apply_net (st : DataCollector) (net_data : Option NetworkHarvest) :
    DataCollector :=
  match net_data with
  | some net_data =>
      { st with total_rx := net_data.total_rx, total_tx := net_data.total_tx,
                data := { st.data with network := some net_data } }
  | none => st

/-- Recording the joined memory result (source lines 403-408): `Ok` overwrites
the field (possibly with absence); `Err` leaves it untouched. -/
def apply_mem (st : DataCollector)
    (mem_res : Except ProbeError (Option MemHarvest)) : DataCollector :=
  match mem_res with
  | Except.ok memory => { st with data := { st.data with memory := memory } }
  | Except.error _ => st

/-- Recording the joined swap result (source lines 410-415). -/
def apply_swap (st : DataCollector)
    (swap_res : Except ProbeError (Option MemHarvest)) : DataCollector :=
  match swap_res with
  | Except.ok swap => { st with data := { st.data with swap := swap } }
  | Except.error _ => st

/-- Recording the joined disk-usage result (source lines 417-426). -/
def apply_disks (st : DataCollector)
    (disk_res : Except ProbeError (Option (List DiskHarvest))) : DataCollector :=
  match disk_res with
  | Except.ok disks => { st with data := { st.data with disks := disks } }
  | Except.error _ => st

/-- Recording the joined disk-I/O result (source lines 428-437). -/
def apply_io (st : DataCollector)
    (io_res : Except ProbeError (Option IOHarvest)) : DataCollector :=
  match io_res with
  | Except.ok io => { st with data := { st.data with io := io } }
  | Except.error _ => st

/-- Recording the joined temperature result (source lines 439-448). -/
def apply_temp (st : DataCollector)
    (temp_res : Except ProbeError (Option (List TempHarvest))) : DataCollector :=
  match temp_res with
  | Except.ok temp =>
      { st with data := { st.data with temperature_sensors := temp } }
  | Except.error _ => st

/-- The final timestamp step (source lines 450-452): stamp both the snapshot's
collection time and the collector's previous-sample time with the cycle's
sampled instant. -/
def stamp_times (st : DataCollector) (current_instant : ℕ) : DataCollector :=
  { st with data := { st.data with last_collection_time := current_instant },
            last_collection_time := current_instant }

/-- `DataCollector::update_data` from `data_harvester.rs`, Linux x86-64 path.
Sequential phase: CPU reading (if the CPU domain is active), battery readings
(if the cached manager and device list are present), process readings (if the
process domain is active, mutating the delta-tracking state on success only).
Fan-out phase: the network, memory, swap, disk-usage, disk-I/O and temperature
probes are issued and joined; each `Ok` result is written to its snapshot
field, an `Err` result leaves its field untouched, and an absent network
reading leaves the network field and totals untouched.  Finally both the
snapshot timestamp and the collector's previous-sample time are stamped with
the cycle's sampled instant. -/
def update_data (st : DataCollector) (env : UpdateEnv) : DataCollector :=
  let current_instant := env.now
  let st := phase_cpu st env
  let st := phase_battery st env
  let st := phase_proc st env
  let net_data := non_arm_or_windows_network_data st.last_collection_time
    st.total_rx st.total_tx current_instant st.widgets_to_harvest.use_net
    env.net_counters
  let mem_res := gated_probe st.widgets_to_harvest.use_mem env.mem_input
  let swap_res := gated_probe st.widgets_to_harvest.use_mem env.swap_input
  let disk_res := gated_probe st.widgets_to_harvest.use_disk env.disk_input
  let io_res := gated_probe st.widgets_to_harvest.use_disk env.io_input
  let temp_res := gated_probe st.widgets_to_harvest.use_temp env.temp_input
  let st := apply_net st net_data
  let st := apply_mem st mem_res
  let st := apply_swap st swap_res
  let st := apply_disks st disk_res
  let st := apply_io st io_res
  let st := apply_temp st temp_res
  stamp_times st current_instant

/-- The battery-bootstrap step of `DataCollector::init`: if battery monitoring
is enabled, attempt to obtain a manager handle and enumerate the devices
(`enumeration` is `none` when `Manager::new()` fails, `some (m, none)` when
`m.batteries()` fails, and `some (m, some list)` with the `Ok` devices
otherwise); only a successful enumeration with a non-empty device list stores
the handle and the list, and they are stored together. -/
def battery_startup (st : DataCollector)
    (enumeration : Option (Manager × Option (List Battery))) : DataCollector :=
  if st.widgets_to_harvest.use_battery then
    match enumeration with
    | some (battery_manager, some batteries) =>
        let battery_list := batteries
        if battery_list.isEmpty then st
        else { st with battery_list := some battery_list,
                       battery_manager := some battery_manager }
    | _ => st
  else st

/-- The fixed pause in `DataCollector::init` between the seed cycle and the
cleanup, in milliseconds (`std::thread::sleep(Duration::from_millis(250))`).
The sleep changes no collector state. -/
def init_sleep_ms : ℕ := 250

/-- `DataCollector::init` from `data_harvester.rs`: cache the total physical
memory, run the battery bootstrap if enabled, execute one full `update_data`
cycle to seed the delta state, sleep `init_sleep_ms` milliseconds (no state
effect), then run `Data::cleanup` on the snapshot. -/
def init (st : DataCollector) (total_memory_kb : ℕ)
    (enumeration : Option (Manager × Option (List Battery)))
    (seed_env : UpdateEnv) : DataCollector :=
  let st := { st with mem_total_kb := total_memory_kb }
  let st := battery_startup st enumeration
  let st := update_data st seed_env
  { st with data := st.data.cleanup }

/-- `DataCollector::set_collected_data`: replace the active-domain flag set. -/
def set_collected_data (st : DataCollector) (used_widgets : UsedWidgets) :
    DataCollector :=
  { st with widgets_to_harvest := used_widgets }

/-- `DataCollector::set_temperature_type`. -/
def set_temperature_type (st : DataCollector)
    (temperature_type : TemperatureType) : DataCollector :=
  { st with temperature_type := temperature_type }

/-- `DataCollector::set_use_current_cpu_total`. -/
def set_use_current_cpu_total (st : DataCollector)
    (use_current_cpu_total : Bool) : DataCollector :=
  { st with use_current_cpu_total := use_current_cpu_total }

/-- `DataCollector::set_show_average_cpu`. -/
def set_show_average_cpu (st : DataCollector) (show_average_cpu : Bool) :
    DataCollector :=
  { st with show_average_cpu := show_average_cpu }

/-- The network probe call issued by `update_data`, with the arguments it
receives from the collector state (the delta state is untouched by the
sequential phase's CPU/battery/process steps). -/
def net_result (st : DataCollector) (env : UpdateEnv) : Option NetworkHarvest :=
  non_arm_or_windows_network_data st.last_collection_time st.total_rx
    st.total_tx env.now st.widgets_to_harvest.use_net env.net_counters

@[simp]
theorem phase_cpu_eq (st : DataCollector) (env : UpdateEnv) :
    phase_cpu st env =
      { st with data := { st.data with cpu :=
          (if st.widgets_to_harvest.use_cpu then
            some (get_cpu_data_list env.cpu_sample st.show_average_cpu)
          else st.data.cpu) } } := by
  unfold phase_cpu
  split <;> rfl

@[simp]
theorem phase_battery_eq (st : DataCollector) (env : UpdateEnv) :
    phase_battery st env =
      { st with data := { st.data with list_of_batteries :=
          (match st.battery_manager, st.battery_list with
          | some battery_manager, some battery_list =>
              some (refresh_batteries battery_manager battery_list
                env.battery_sample)
          | _, _ => st.data.list_of_batteries) } } := by
  obtain ⟨d, pm, pi, pni, mt, tt, uc, lct, trx, ttx, sac, w, bm, bl, pf⟩ := st
  rcases bm with _ | m <;> rcases bl with _ | l <;> rfl

@[simp]
theorem phase_proc_eq (st : DataCollector) (env : UpdateEnv) :
    phase_proc st env =
      { st with
          data := { st.data with list_of_processes :=
            (match proc_result st env with
            | some outcome => some outcome.list
            | none => st.data.list_of_processes) }
          prev_idle :=
            (match proc_result st env with
            | some outcome => outcome.new_prev_idle
            | none => st.prev_idle)
          prev_non_idle :=
            (match proc_result st env with
            | some outcome => outcome.new_prev_non_idle
            | none => st.prev_non_idle)
          pid_mapping :=
            (match proc_result st env with
            | some outcome => outcome.new_pid_mapping
            | none => st.pid_mapping) } := by
  unfold phase_proc
  rcases h : proc_result st env with _ | outcome <;> simp only [h]

@[simp]
theorem apply_net_eq (st : DataCollector) (net_data : Option NetworkHarvest) :
    apply_net st net_data =
      { st with
          total_rx :=
            (match net_data with
            | some net_data => net_data.total_rx
            | none => st.total_rx)
          total_tx :=
            (match net_data with
            | some net_data => net_data.total_tx
            | none => st.total_tx)
          data := { st.data with network :=
            (match net_data with
            | some net_data => some net_data
            | none => st.data.network) } } := by
  unfold apply_net
  rcases net_data with _ | nd <;> rfl

@[simp]
theorem apply_mem_eq (st : DataCollector)
    (mem_res : Except ProbeError (Option MemHarvest)) :
    apply_mem st mem_res =
      { st with data := { st.data with memory :=
          (match mem_res with
          | Except.ok memory => memory
          | Except.error _ => st.data.memory) } } := by
  unfold apply_mem
  rcases mem_res with e | m <;> rfl

@[simp]
theorem apply_swap_eq (st : DataCollector)
    (swap_res : Except ProbeError (Option MemHarvest)) :
    apply_swap st swap_res =
      { st with data := { st.data with swap :=
          (match swap_res with
          | Except.ok swap => swap
          | Except.error _ => st.data.swap) } } := by
  unfold apply_swap
  rcases swap_res with e | s <;> rfl

@[simp]
theorem apply_disks_eq (st : DataCollector)
    (disk_res : Except ProbeError (Option (List DiskHarvest))) :
    apply_disks st disk_res =
      { st with data := { st.data with disks :=
          (match disk_res with
          | Except.ok disks => disks
          | Except.error _ => st.data.disks) } } := by
  unfold apply_disks
  rcases disk_res with e | d <;> rfl

@[simp]
theorem apply_io_eq (st : DataCollector)
    (io_res : Except ProbeError (Option IOHarvest)) :
    apply_io st io_res =
      { st with data := { st.data with io :=
          (match io_res with
          | Except.ok io => io
          | Except.error _ => st.data.io) } } := by
  unfold apply_io
  rcases io_res with e | i <;> rfl

@[simp]
theorem apply_temp_eq (st : DataCollector)
    (temp_res : Except ProbeError (Option (List TempHarvest))) :
    apply_temp st temp_res =
      { st with data := { st.data with temperature_sensors :=
          (match temp_res with
          | Except.ok temp => temp
          | Except.error _ => st.data.temperature_sensors) } } := by
  unfold apply_temp
  rcases temp_res with e | t <;> rfl

@[simp]
theorem stamp_times_eq (st : DataCollector) (t : ℕ) :
    stamp_times st t =
      { st with data := { st.data with last_collection_time := t },
                last_collection_time := t } := rfl

/-- The process probe's inputs ignore the snapshot, so updating the snapshot
field alone does not change the probe's outcome. -/
theorem proc_result_set_data (st : DataCollector) (d : Data) (env : UpdateEnv) :
    proc_result { st with data := d } env = proc_result st env := rfl

theorem update_data_last_collection_time (st : DataCollector) (env : UpdateEnv) :
    (update_data st env).last_collection_time = env.now := by
  simp [update_data]

theorem update_data_data_time (st : DataCollector) (env : UpdateEnv) :
    (update_data st env).data.last_collection_time = env.now := by
  simp [update_data]

theorem update_data_memory (st : DataCollector) (env : UpdateEnv) :
    (update_data st env).data.memory =
      (match gated_probe st.widgets_to_harvest.use_mem env.mem_input with
      | Except.ok memory => memory
      | Except.error _ => st.data.memory) := by
  simp [update_data]

theorem update_data_swap (st : DataCollector) (env : UpdateEnv) :
    (update_data st env).data.swap =
      (match gated_probe st.widgets_to_harvest.use_mem env.swap_input with
      | Except.ok swap => swap
      | Except.error _ => st.data.swap) := by
  simp [update_data]

theorem update_data_disks (st : DataCollector) (env : UpdateEnv) :
    (update_data st env).data.disks =
      (match gated_probe st.widgets_to_harvest.use_disk env.disk_input with
      | Except.ok disks => disks
      | Except.error _ => st.data.disks) := by
  simp [update_data]

theorem update_data_io (st : DataCollector) (env : UpdateEnv) :
    (update_data st env).data.io =
      (match gated_probe st.widgets_to_harvest.use_disk env.io_input with
      | Except.ok io => io
      | Except.error _ => st.data.io) := by
  simp [update_data]

theorem update_data_temperature (st : DataCollector) (env : UpdateEnv) :
    (update_data st env).data.temperature_sensors =
      (match gated_probe st.widgets_to_harvest.use_temp env.temp_input with
      | Except.ok temp => temp
      | Except.error _ => st.data.temperature_sensors) := by
  simp [update_data]

theorem update_data_network (st : DataCollector) (env : UpdateEnv) :
    (update_data st env).data.network =
      (match net_result st env with
      | some net_data => some net_data
      | none => st.data.network) := by
  simp [update_data, net_result]

theorem update_data_total_rx (st : DataCollector) (env : UpdateEnv) :
    (update_data st env).total_rx =
      (match net_result st env with
      | some net_data => net_data.total_rx
      | none => st.total_rx) := by
  simp [update_data, net_result]

theorem update_data_total_tx (st : DataCollector) (env : UpdateEnv) :
    (update_data st env).total_tx =
      (match net_result st env with
      | some net_data => net_data.total_tx
      | none => st.total_tx) := by
  simp [update_data, net_result]

theorem update_data_cpu (st : DataCollector) (env : UpdateEnv) :
    (update_data st env).data.cpu =
      (if st.widgets_to_harvest.use_cpu then
        some (get_cpu_data_list env.cpu_sample st.show_average_cpu)
      else st.data.cpu) := by
  simp [update_data]

theorem update_data_batteries (st : DataCollector) (env : UpdateEnv) :
    (update_data st env).data.list_of_batteries =
      (match st.battery_manager, st.battery_list with
      | some battery_manager, some battery_list =>
          some (refresh_batteries battery_manager battery_list
            env.battery_sample)
      | _, _ => st.data.list_of_batteries) := by
  simp [update_data]

theorem update_data_processes (st : DataCollector) (env : UpdateEnv) :
    (update_data st env).data.list_of_processes =
      (match proc_result st env with
      | some outcome => some outcome.list
      | none => st.data.list_of_processes) := by
  simp [update_data, proc_result_set_data]

theorem update_data_pid_mapping (st : DataCollector) (env : UpdateEnv) :
    (update_data st env).pid_mapping =
      (match proc_result st env with
      | some outcome => outcome.new_pid_mapping
      | none => st.pid_mapping) := by
  simp [update_data, proc_result_set_data]

theorem update_data_prev_idle (st : DataCollector) (env : UpdateEnv) :
    (update_data st env).prev_idle =
      (match proc_result st env with
      | some outcome => outcome.new_prev_idle
      | none => st.prev_idle) := by
  simp [update_data, proc_result_set_data]

theorem update_data_prev_non_idle (st : DataCollector) (env : UpdateEnv) :
    (update_data st env).prev_non_idle =
      (match proc_result st env with
      | some outcome => outcome.new_prev_non_idle
      | none => st.prev_non_idle) := by
  simp [update_data, proc_result_set_data]

theorem update_data_mem_total_kb (st : DataCollector) (env : UpdateEnv) :
    (update_data st env).mem_total_kb = st.mem_total_kb := by
  simp [update_data]

theorem update_data_widgets (st : DataCollector) (env : UpdateEnv) :
    (update_data st env).widgets_to_harvest = st.widgets_to_harvest := by
  simp [update_data]

theorem update_data_battery_manager (st : DataCollector) (env : UpdateEnv) :
    (update_data st env).battery_manager = st.battery_manager := by
  simp [update_data]

theorem update_data_battery_list (st : DataCollector) (env : UpdateEnv) :
    (update_data st env).battery_list = st.battery_list := by
  simp [update_data]

@[simp]
theorem cleanup_eq (d : Data) :
    d.cleanup =
      { d with io := none, temperature_sensors := none,
               list_of_processes := none, disks := none, memory := none,
               swap := none, cpu := none,
               network := Option.map NetworkHarvest.first_run_cleanup d.network } := by
  obtain ⟨lct, c, m, s, t, n, p, dk, i, b⟩ := d
  rcases n with _ | n <;> rfl

/-- The successful branch of the battery bootstrap: the handle and the device
list the bootstrap stores, when it stores anything. -/
theorem battery_startup_cases (st : DataCollector)
    (enumeration : Option (Manager × Option (List Battery))) :
    battery_startup st enumeration = st ∨
    ∃ battery_manager battery_list,
      battery_list ≠ [] ∧
      battery_startup st enumeration =
        { st with battery_manager := some battery_manager,
                  battery_list := some battery_list } := by
  unfold battery_startup
  split
  · rcases enumeration with _ | ⟨m, _ | l⟩
    · left; rfl
    · left; rfl
    · by_cases hl : l.isEmpty
      · left; simp [hl]
      · right
        refine ⟨m, l, ?_, by simp [hl]⟩
        simpa [List.isEmpty_iff] using hl
  · left; rfl

theorem init_eq (st : DataCollector) (total_memory_kb : ℕ)
    (enumeration : Option (Manager × Option (List Battery)))
    (seed_env : UpdateEnv) :
    init st total_memory_kb enumeration seed_env =
      (let seeded := update_data
        (battery_startup { st with mem_total_kb := total_memory_kb }
          enumeration) seed_env
      { seeded with data := seeded.data.cleanup }) := rfl

/-! ## Concrete fixtures used by witnesses and counterexamples -/

/-- All domains active. -/
def all_widgets : UsedWidgets :=
  { use_cpu := true, use_mem := true, use_net := true, use_proc := true,
    use_disk := true, use_temp := true, use_battery := true }

/-- An empty snapshot, as after `Data::default()`. -/
def base_data : Data :=
  { last_collection_time := 0, cpu := none, memory := none, swap := none,
    temperature_sensors := none, network := none, list_of_processes := none,
    disks := none, io := none, list_of_batteries := none }

/-- A freshly-constructed collector with all domains active. -/
def base_st : DataCollector :=
  { data := base_data, pid_mapping := [], prev_idle := 0, prev_non_idle := 0,
    mem_total_kb := 0, temperature_type := TemperatureType.celsius,
    use_current_cpu_total := false, last_collection_time := 0, total_rx := 0,
    total_tx := 0, show_average_cpu := false, widgets_to_harvest := all_widgets,
    battery_manager := none, battery_list := none, page_file_size_kb := 4 }

/-- All domains disabled. -/
def no_widgets : UsedWidgets :=
  { use_cpu := false, use_mem := false, use_net := false, use_proc := false,
    use_disk := false, use_temp := false, use_battery := false }

/-- One healthy process-probe observation set: one live process. -/
def base_proc_sample : ProcSample :=
  { cur_idle := 100, cur_non_idle := 50,
    procs := [{ pid := 1, total_ticks := 5, mem_usage_kb := 10 }] }

/-- One cycle's worth of healthy probe observations, one second in. -/
def base_env : UpdateEnv :=
  { now := 1000, cpu_sample := [25, 75], battery_sample := [⟨50⟩],
    proc_input := Except.ok base_proc_sample,
    net_counters := some (1000, 2000),
    mem_input := Except.ok (some { mem_total_in_mb := 16000, mem_used_in_mb := 8000 }),
    swap_input := Except.ok (some { mem_total_in_mb := 1000, mem_used_in_mb := 0 }),
    disk_input := Except.ok (some [{ name := "sda", used_space := 1, total_space := 2 }]),
    io_input := Except.ok (some [("sda", 3, 4)]),
    temp_input := Except.ok (some [{ component_name := "cpu", temperature := 40 }]) }

/-! ## Claims -/

/-- C4: for all elapsed durations greater than zero and non-negative idle and
non-idle tick deltas, the overall CPU usage percentage lies in `[0, 100]`, and
when both deltas are zero the percentage is `0` — no division by zero.  (The
overall-percentage formula does not consume the elapsed duration; it is
quantified here because the claim quantifies over it.) -/
theorem claim_c4_cpu_percentage_bounds (elapsed dni di : ℚ)
    (helapsed : 0 < elapsed) (hdni : 0 ≤ dni) (hdi : 0 ≤ di) :
    (0 ≤ cpu_usage_percentage dni di ∧ cpu_usage_percentage dni di ≤ 100) ∧
    cpu_usage_percentage 0 0 = 0 := by
  refine ⟨⟨?_, ?_⟩, ?_⟩
  · unfold cpu_usage_percentage
    split
    · norm_num
    · exact le_min (by norm_num) (le_max_left 0 _)
  · unfold cpu_usage_percentage
    split
    · norm_num
    · exact min_le_left _ _
  · simp [cpu_usage_percentage]

/-- Witness for C4 at elapsed `= 1`, `Δnon_idle = 1`, `Δidle = 3` (the
percentage there evaluates to `25`). -/
theorem claim_c4_witness :
    (0 : ℚ) < 1 ∧ (0 : ℚ) ≤ 1 ∧ (0 : ℚ) ≤ 3 ∧
    cpu_usage_percentage 1 3 = 25 ∧
    ((0 ≤ cpu_usage_percentage 1 3 ∧ cpu_usage_percentage 1 3 ≤ 100) ∧
      cpu_usage_percentage 0 0 = 0) :=
  ⟨by norm_num, by norm_num, by norm_num, by norm_num [cpu_usage_percentage],
    claim_c4_cpu_percentage_bounds 1 1 3 (by norm_num) (by norm_num) (by norm_num)⟩

/-- C5: the network rate step never produces a negative rate: a counter
decrease resets the baseline to the current value and reports a zero rate;
otherwise the rate is `(current - previous) / elapsed` and the baseline
advances; on the spec's examples, `prev=1000, cur=1500, elapsed=1s` gives rate
`500` and `prev=1000, cur=200, elapsed=1s` gives rate `0` with baseline
`200`. -/
theorem claim_c5_net_rate (prev cur : ℕ) (elapsed : ℚ) (h : 0 < elapsed) :
    0 ≤ (net_rate_update prev cur elapsed).rate ∧
    (cur < prev → (net_rate_update prev cur elapsed).rate = 0 ∧
      (net_rate_update prev cur elapsed).baseline = cur) ∧
    (¬ cur < prev → (net_rate_update prev cur elapsed).rate =
        ((cur - prev : ℕ) : ℚ) / elapsed ∧
      (net_rate_update prev cur elapsed).baseline = cur) ∧
    net_rate_update 1000 1500 1 = { rate := 500, baseline := 1500 } ∧
    net_rate_update 1000 200 1 = { rate := 0, baseline := 200 } := by
  refine ⟨?_, ?_, ?_, ?_, ?_⟩
  · unfold net_rate_update
    split
    · norm_num
    · exact div_nonneg (Nat.cast_nonneg _) (le_of_lt h)
  · intro hlt
    simp [net_rate_update, hlt]
  · intro hge
    simp [net_rate_update, hge]
  · norm_num [net_rate_update]
  · norm_num [net_rate_update]

/-- Witness for C5 at `prev = 1000`, `cur = 1500`, `elapsed = 1`. -/
theorem claim_c5_witness :
    (0 : ℚ) < 1 ∧
    (net_rate_update 1000 1500 1).rate = 500 ∧
    net_rate_update 1000 200 1 = { rate := 0, baseline := 200 } := by
  have h := claim_c5_net_rate 1000 1500 1 (by norm_num)
  refine ⟨by norm_num, ?_, h.2.2.2.2⟩
  rw [(h.2.2.1 (by norm_num)).1]
  norm_num

/-- C6: after an `update_data` cycle whose process probe ran and succeeded,
the keys of the collector's per-process delta map are exactly the process ids
observed in that cycle's sample — stale entries are pruned and every live id
has an entry. -/
theorem claim_c6_pid_mapping_keys (st : DataCollector) (env : UpdateEnv)
    (sample : ProcSample) (hproc : st.widgets_to_harvest.use_proc = true)
    (hok : env.proc_input = Except.ok sample) :
    (update_data st env).pid_mapping.map Prod.fst =
      sample.procs.map ProcObservation.pid ∧
    ((update_data st env).pid_mapping.map Prod.fst).toFinset =
      (sample.procs.map ProcObservation.pid).toFinset := by
  have hmap : (update_data st env).pid_mapping =
      sample.procs.map (fun o => (o.pid, (⟨o.total_ticks⟩ : PrevProcDetails))) := by
    rw [update_data_pid_mapping]
    simp [proc_result, hproc, hok, linux_processes]
  constructor
  · rw [hmap, List.map_map]
    rfl
  · rw [hmap, List.map_map]
    rfl

/-- Witness for C6: two processes observed, one stale entry pruned. -/
theorem claim_c6_witness :
    (base_st.widgets_to_harvest.use_proc = true ∧
      base_env.proc_input = Except.ok base_proc_sample) ∧
    (update_data base_st base_env).pid_mapping.map Prod.fst = [1] := by
  have h := claim_c6_pid_mapping_keys base_st base_env base_proc_sample rfl rfl
  exact ⟨⟨rfl, rfl⟩, h.1⟩

/-- C9: after a cycle, the snapshot's collection timestamp and the collector's
previous-sample time both equal the cycle's sampled instant, so the elapsed
denominator of the following cycle is the wall-clock time between cycle
instants, not between individual probe calls. -/
theorem claim_c9_timestamps (st : DataCollector) (env1 env2 : UpdateEnv) :
    (update_data st env1).data.last_collection_time = env1.now ∧
    (update_data st env1).last_collection_time = env1.now ∧
    proc_elapsed_secs (update_data st env1) env2 = (env2.now - env1.now) / 1000 := by
  refine ⟨update_data_data_time st env1, update_data_last_collection_time st env1, ?_⟩
  unfold proc_elapsed_secs
  rw [update_data_last_collection_time]

/-- C1 counterexample: with the memory domain active, a snapshot that already
holds a memory reading from an earlier cycle, and a memory probe that fails
this cycle, the memory field after the cycle is NOT absent — it still holds
the stale reading, contradicting the claim that a probe failure makes the
field absent for that cycle. -/
theorem claim_c1_counterexample :
    (update_data
        { base_st with data := { base_data with
            memory := some { mem_total_in_mb := 16000, mem_used_in_mb := 8000 } } }
        { base_env with mem_input := Except.error { msg := "io error" } }).data.memory
      = some { mem_total_in_mb := 16000, mem_used_in_mb := 8000 } ∧
    (update_data
        { base_st with data := { base_data with
            memory := some { mem_total_in_mb := 16000, mem_used_in_mb := 8000 } } }
        { base_env with mem_input := Except.error { msg := "io error" } }).data.memory
      ≠ none := by
  have heq : (update_data
      { base_st with data := { base_data with
          memory := some { mem_total_in_mb := 16000, mem_used_in_mb := 8000 } } }
      { base_env with mem_input := Except.error { msg := "io error" } }).data.memory
      = some { mem_total_in_mb := 16000, mem_used_in_mb := 8000 } := rfl
  exact ⟨heq, by rw [heq]; simp⟩

/-- C1 (amended): a fan-out probe failure does not abort the cycle (the
timestamp is still stamped) and does not prevent any other probe's result from
being recorded (each field's outcome depends only on its own probe); but the
failing probe's snapshot field is left UNCHANGED from the previous cycle — it
is not set to absent.  Only a successful probe overwrites its field (with
absence in the successful-but-empty case). -/
theorem claim_c1_probe_failure (st : DataCollector) (env : UpdateEnv) :
    (∀ e, env.mem_input = Except.error e →
      st.widgets_to_harvest.use_mem = true →
      (update_data st env).data.memory = st.data.memory) ∧
    (∀ m, env.mem_input = Except.ok m → st.widgets_to_harvest.use_mem = true →
      (update_data st env).data.memory = m) ∧
    (∀ e, env.swap_input = Except.error e →
      st.widgets_to_harvest.use_mem = true →
      (update_data st env).data.swap = st.data.swap) ∧
    (∀ s, env.swap_input = Except.ok s → st.widgets_to_harvest.use_mem = true →
      (update_data st env).data.swap = s) ∧
    (∀ e, env.disk_input = Except.error e →
      st.widgets_to_harvest.use_disk = true →
      (update_data st env).data.disks = st.data.disks) ∧
    (∀ d, env.disk_input = Except.ok d → st.widgets_to_harvest.use_disk = true →
      (update_data st env).data.disks = d) ∧
    (∀ e, env.io_input = Except.error e →
      st.widgets_to_harvest.use_disk = true →
      (update_data st env).data.io = st.data.io) ∧
    (∀ i, env.io_input = Except.ok i → st.widgets_to_harvest.use_disk = true →
      (update_data st env).data.io = i) ∧
    (∀ e, env.temp_input = Except.error e →
      st.widgets_to_harvest.use_temp = true →
      (update_data st env).data.temperature_sensors = st.data.temperature_sensors) ∧
    (∀ t, env.temp_input = Except.ok t → st.widgets_to_harvest.use_temp = true →
      (update_data st env).data.temperature_sensors = t) ∧
    (env.net_counters = none →
      (update_data st env).data.network = st.data.network ∧
      (update_data st env).total_rx = st.total_rx ∧
      (update_data st env).total_tx = st.total_tx) ∧
    (update_data st env).data.last_collection_time = env.now := by
  refine ⟨?_, ?_, ?_, ?_, ?_, ?_, ?_, ?_, ?_, ?_, ?_,
    update_data_data_time st env⟩
  · intro e he hf
    rw [update_data_memory]
    simp [gated_probe, he, hf]
  · intro m hm hf
    rw [update_data_memory]
    simp [gated_probe, hm, hf]
  · intro e he hf
    rw [update_data_swap]
    simp [gated_probe, he, hf]
  · intro s hs hf
    rw [update_data_swap]
    simp [gated_probe, hs, hf]
  · intro e he hf
    rw [update_data_disks]
    simp [gated_probe, he, hf]
  · intro d hd hf
    rw [update_data_disks]
    simp [gated_probe, hd, hf]
  · intro e he hf
    rw [update_data_io]
    simp [gated_probe, he, hf]
  · intro i hi hf
    rw [update_data_io]
    simp [gated_probe, hi, hf]
  · intro e he hf
    rw [update_data_temperature]
    simp [gated_probe, he, hf]
  · intro t ht hf
    rw [update_data_temperature]
    simp [gated_probe, ht, hf]
  · intro hn
    rw [update_data_network, update_data_total_rx, update_data_total_tx]
    simp [net_result, non_arm_or_windows_network_data, hn]

/-- Witness for C1 (amended): a failing memory probe leaves the stale memory
reading in place while the swap probe's result is still recorded and the
timestamp still advances. -/
theorem claim_c1_witness :
    (update_data
        { base_st with data := { base_data with
            memory := some { mem_total_in_mb := 16000, mem_used_in_mb := 8000 } } }
        { base_env with mem_input := Except.error { msg := "io error" } }).data.memory
      = some { mem_total_in_mb := 16000, mem_used_in_mb := 8000 } ∧
    (update_data
        { base_st with data := { base_data with
            memory := some { mem_total_in_mb := 16000, mem_used_in_mb := 8000 } } }
        { base_env with mem_input := Except.error { msg := "io error" } }).data.swap
      = some { mem_total_in_mb := 1000, mem_used_in_mb := 0 } ∧
    (update_data
        { base_st with data := { base_data with
            memory := some { mem_total_in_mb := 16000, mem_used_in_mb := 8000 } } }
        { base_env with mem_input := Except.error { msg := "io error" } }).data.last_collection_time
      = 1000 := by
  have h := claim_c1_probe_failure
    { base_st with data := { base_data with
        memory := some { mem_total_in_mb := 16000, mem_used_in_mb := 8000 } } }
    { base_env with mem_input := Except.error { msg := "io error" } }
  refine ⟨(h.1 { msg := "io error" } rfl rfl).trans rfl, ?_, h.2.2.2.2.2.2.2.2.2.2.2⟩
  exact h.2.2.2.1 (some { mem_total_in_mb := 1000, mem_used_in_mb := 0 }) rfl rfl

/-- C2 counterexample: the CPU domain is disabled, yet after the cycle the CPU
snapshot field is NOT absent: the disabled CPU step never assigns the field,
so a reading left over from an earlier cycle survives — contradicting the
claim that disabling a domain guarantees absence after the cycle for every
domain. -/
theorem claim_c2_counterexample :
    (update_data
        { base_st with
            data := { base_data with cpu := some [12] },
            widgets_to_harvest := { all_widgets with use_cpu := false } }
        base_env).data.cpu = some [12] ∧
    (update_data
        { base_st with
            data := { base_data with cpu := some [12] },
            widgets_to_harvest := { all_widgets with use_cpu := false } }
        base_env).data.cpu ≠ none := by
  have heq : (update_data
      { base_st with
          data := { base_data with cpu := some [12] },
          widgets_to_harvest := { all_widgets with use_cpu := false } }
      base_env).data.cpu = some [12] := rfl
  exact ⟨heq, by rw [heq]; simp⟩

/-- C2 (amended): a disabled domain's probe skips its work, but absence of the
snapshot field after the cycle is guaranteed only for the gated fan-out
domains memory, swap, disk usage, disk I/O and temperature (their disabled
probes return an empty success that overwrites the field with absence).  For
the CPU, process and network domains the disabled probe simply never assigns
the field, which therefore retains its previous value (absent only if it was
already absent); the battery step ignores the active-domain flag entirely. -/
theorem claim_c2_disabled_domains (st : DataCollector) (env : UpdateEnv) :
    (st.widgets_to_harvest.use_mem = false →
      (update_data st env).data.memory = none ∧
      (update_data st env).data.swap = none) ∧
    (st.widgets_to_harvest.use_disk = false →
      (update_data st env).data.disks = none ∧
      (update_data st env).data.io = none) ∧
    (st.widgets_to_harvest.use_temp = false →
      (update_data st env).data.temperature_sensors = none) ∧
    (st.widgets_to_harvest.use_cpu = false →
      (update_data st env).data.cpu = st.data.cpu) ∧
    (st.widgets_to_harvest.use_proc = false →
      (update_data st env).data.list_of_processes = st.data.list_of_processes ∧
      (update_data st env).pid_mapping = st.pid_mapping) ∧
    (st.widgets_to_harvest.use_net = false →
      (update_data st env).data.network = st.data.network ∧
      (update_data st env).total_rx = st.total_rx ∧
      (update_data st env).total_tx = st.total_tx) := by
  refine ⟨?_, ?_, ?_, ?_, ?_, ?_⟩
  · intro hf
    rw [update_data_memory, update_data_swap]
    simp [gated_probe, hf]
  · intro hf
    rw [update_data_disks, update_data_io]
    simp [gated_probe, hf]
  · intro hf
    rw [update_data_temperature]
    simp [gated_probe, hf]
  · intro hf
    rw [update_data_cpu]
    simp [hf]
  · intro hf
    rw [update_data_processes, update_data_pid_mapping]
    simp [proc_result, hf]
  · intro hf
    rw [update_data_network, update_data_total_rx, update_data_total_tx]
    simp [net_result, non_arm_or_windows_network_data, hf]

/-- Witness for C2 (amended): with every domain flag off, the gated fan-out
fields are absent after the cycle while the CPU field keeps its stale value. -/
theorem claim_c2_witness :
    (update_data
        { base_st with
            data := { base_data with cpu := some [12] },
            widgets_to_harvest := no_widgets }
        base_env).data.memory = none ∧
    (update_data
        { base_st with
            data := { base_data with cpu := some [12] },
            widgets_to_harvest := no_widgets }
        base_env).data.cpu = some [12] := by
  have h := claim_c2_disabled_domains
    { base_st with
        data := { base_data with cpu := some [12] },
        widgets_to_harvest := no_widgets }
    base_env
  exact ⟨(h.1 rfl).1, (h.2.2.2.1 rfl).trans rfl⟩

/-- C3 counterexample: on a snapshot holding a network reading and a battery
list, `cleanup` leaves both fields present (the network reading is reset in
place, the battery list is untouched) — contradicting the claim that every
computed per-cycle field, network reading and batteries included, is set to
absent. -/
theorem claim_c3_counterexample :
    (Data.cleanup { base_data with
        network := some { rx := 7, tx := 8, total_rx := 100, total_tx := 200 },
        list_of_batteries := some [{ charge_percent := 50 }] }).network ≠ none ∧
    (Data.cleanup { base_data with
        network := some { rx := 7, tx := 8, total_rx := 100, total_tx := 200 },
        list_of_batteries := some [{ charge_percent := 50 }] }).list_of_batteries
      ≠ none := by
  constructor
  · intro h
    simp at h
  · intro h
    simp at h

/-- C3 (amended): `cleanup` sets the CPU, memory, swap, temperature, process,
disk and disk-I/O fields to absent and leaves the collection timestamp alone;
the network field is not cleared — a present reading has its per-cycle rates
zeroed in place while its cumulative totals (the tracked baseline) are kept —
and the battery field is left untouched. -/
theorem claim_c3_cleanup (d : Data) :
    (Data.cleanup d).cpu = none ∧
    (Data.cleanup d).memory = none ∧
    (Data.cleanup d).swap = none ∧
    (Data.cleanup d).temperature_sensors = none ∧
    (Data.cleanup d).list_of_processes = none ∧
    (Data.cleanup d).disks = none ∧
    (Data.cleanup d).io = none ∧
    (Data.cleanup d).list_of_batteries = d.list_of_batteries ∧
    (Data.cleanup d).network =
      Option.map NetworkHarvest.first_run_cleanup d.network ∧
    (∀ n : NetworkHarvest,
      (NetworkHarvest.first_run_cleanup n).total_rx = n.total_rx ∧
      (NetworkHarvest.first_run_cleanup n).total_tx = n.total_tx ∧
      (NetworkHarvest.first_run_cleanup n).rx = 0 ∧
      (NetworkHarvest.first_run_cleanup n).tx = 0) ∧
    (Data.cleanup d).last_collection_time = d.last_collection_time := by
  refine ⟨?_, ?_, ?_, ?_, ?_, ?_, ?_, ?_, ?_, ?_, ?_⟩ <;>
    simp [cleanup_eq, NetworkHarvest.first_run_cleanup]

/-- The battery bootstrap touches only the battery handle and device list. -/
theorem battery_startup_frame (st : DataCollector)
    (enumeration : Option (Manager × Option (List Battery))) :
    (battery_startup st enumeration).data = st.data ∧
    (battery_startup st enumeration).pid_mapping = st.pid_mapping ∧
    (battery_startup st enumeration).prev_idle = st.prev_idle ∧
    (battery_startup st enumeration).prev_non_idle = st.prev_non_idle ∧
    (battery_startup st enumeration).mem_total_kb = st.mem_total_kb ∧
    (battery_startup st enumeration).last_collection_time = st.last_collection_time ∧
    (battery_startup st enumeration).total_rx = st.total_rx ∧
    (battery_startup st enumeration).total_tx = st.total_tx ∧
    (battery_startup st enumeration).widgets_to_harvest = st.widgets_to_harvest := by
  rcases battery_startup_cases st enumeration with h | ⟨m, l, _, h⟩ <;> rw [h] <;>
    exact ⟨rfl, rfl, rfl, rfl, rfl, rfl, rfl, rfl, rfl⟩

/-- The collector state right after `init`'s seed cycle: memory total cached,
battery bootstrap done, one `update_data` run — but before the cleanup. -/
def seed_state (st : DataCollector) (total_memory_kb : ℕ)
    (enumeration : Option (Manager × Option (List Battery)))
    (seed_env : UpdateEnv) : DataCollector :=
  update_data (battery_startup { st with mem_total_kb := total_memory_kb }
    enumeration) seed_env

theorem seed_state_mem_total (st : DataCollector) (tm : ℕ)
    (e : Option (Manager × Option (List Battery))) (seed_env : UpdateEnv) :
    (seed_state st tm e seed_env).mem_total_kb = tm := by
  unfold seed_state
  rw [update_data_mem_total_kb, (battery_startup_frame _ _).2.2.2.2.1]

/-- C7: `init` caches the total physical memory (and no later cycle changes
it), runs the battery bootstrap only when battery monitoring is enabled, runs
exactly one seed `update_data` cycle, pauses a fixed 250 ms (on the order of
hundreds of milliseconds), and then cleans the snapshot: the seed cycle's
domain values are discarded while the delta-tracking state, the network
cumulative-totals baseline and the seed cycle's timestamp survive. -/
theorem claim_c7_init (st : DataCollector) (tm : ℕ)
    (e : Option (Manager × Option (List Battery))) (seed_env : UpdateEnv) :
    init st tm e seed_env =
      { seed_state st tm e seed_env with
          data := (seed_state st tm e seed_env).data.cleanup } ∧
    (init st tm e seed_env).mem_total_kb = tm ∧
    (∀ env2, (update_data (init st tm e seed_env) env2).mem_total_kb = tm) ∧
    (init st tm e seed_env).data.cpu = none ∧
    (init st tm e seed_env).data.memory = none ∧
    (init st tm e seed_env).data.swap = none ∧
    (init st tm e seed_env).data.temperature_sensors = none ∧
    (init st tm e seed_env).data.list_of_processes = none ∧
    (init st tm e seed_env).data.disks = none ∧
    (init st tm e seed_env).data.io = none ∧
    (init st tm e seed_env).pid_mapping = (seed_state st tm e seed_env).pid_mapping ∧
    (init st tm e seed_env).prev_idle = (seed_state st tm e seed_env).prev_idle ∧
    (init st tm e seed_env).prev_non_idle =
      (seed_state st tm e seed_env).prev_non_idle ∧
    (init st tm e seed_env).total_rx = (seed_state st tm e seed_env).total_rx ∧
    (init st tm e seed_env).total_tx = (seed_state st tm e seed_env).total_tx ∧
    (init st tm e seed_env).last_collection_time = seed_env.now ∧
    (init st tm e seed_env).data.network =
      Option.map NetworkHarvest.first_run_cleanup
        (seed_state st tm e seed_env).data.network ∧
    100 ≤ init_sleep_ms ∧ init_sleep_ms < 1000 ∧
    (st.widgets_to_harvest.use_battery = false →
      (init st tm e seed_env).battery_manager = st.battery_manager ∧
      (init st tm e seed_env).battery_list = st.battery_list) := by
  have hinit : init st tm e seed_env =
      { seed_state st tm e seed_env with
          data := (seed_state st tm e seed_env).data.cleanup } := rfl
  refine ⟨hinit, ?_, ?_, ?_, ?_, ?_, ?_, ?_, ?_, ?_, ?_, ?_, ?_, ?_, ?_, ?_,
    ?_, ?_, ?_, ?_⟩
  · rw [hinit]
    exact seed_state_mem_total st tm e seed_env
  · intro env2
    rw [update_data_mem_total_kb, hinit]
    exact seed_state_mem_total st tm e seed_env
  · rw [hinit]; simp [cleanup_eq]
  · rw [hinit]; simp [cleanup_eq]
  · rw [hinit]; simp [cleanup_eq]
  · rw [hinit]; simp [cleanup_eq]
  · rw [hinit]; simp [cleanup_eq]
  · rw [hinit]; simp [cleanup_eq]
  · rw [hinit]; simp [cleanup_eq]
  · rw [hinit]
  · rw [hinit]
  · rw [hinit]
  · rw [hinit]
  · rw [hinit]
  · rw [hinit]
    show (seed_state st tm e seed_env).last_collection_time = seed_env.now
    unfold seed_state
    exact update_data_last_collection_time _ _
  · rw [hinit]; simp [cleanup_eq]
  · norm_num [init_sleep_ms]
  · norm_num [init_sleep_ms]
  · intro hb
    have hbs : battery_startup { st with mem_total_kb := tm } e =
        { st with mem_total_kb := tm } := by
      unfold battery_startup
      simp [hb]
    constructor
    · rw [hinit]
      show (seed_state st tm e seed_env).battery_manager = st.battery_manager
      unfold seed_state
      rw [update_data_battery_manager, hbs]
    · rw [hinit]
      show (seed_state st tm e seed_env).battery_list = st.battery_list
      unfold seed_state
      rw [update_data_battery_list, hbs]

/-- Witness for C7 with battery monitoring disabled, total memory 4096 KB. -/
theorem claim_c7_witness :
    ({ base_st with widgets_to_harvest := no_widgets
        } : DataCollector).widgets_to_harvest.use_battery = false ∧
    (init { base_st with widgets_to_harvest := no_widgets }
      4096 none base_env).mem_total_kb = 4096 ∧
    (init { base_st with widgets_to_harvest := no_widgets }
      4096 none base_env).battery_manager = none ∧
    (init { base_st with widgets_to_harvest := no_widgets }
      4096 none base_env).data.cpu = none := by
  have h := claim_c7_init { base_st with widgets_to_harvest := no_widgets }
    4096 none base_env
  obtain ⟨-, h2, -, h4, -, -, -, -, -, -, -, -, -, -, -, -, -, -, -, h20⟩ := h
  exact ⟨rfl, h2, ((h20 rfl).1).trans rfl, h4⟩

/-- Once the battery handle is absent and the battery snapshot field is
absent, any sequence of cycles keeps all three battery components absent:
`update_data` never writes the handle or the list, and its battery step is
guarded by the handle's presence. -/
theorem battery_none_foldl (envs : List UpdateEnv) :
    ∀ s : DataCollector, s.battery_manager = none → s.battery_list = none →
      s.data.list_of_batteries = none →
      ((envs.foldl update_data s).battery_manager = none ∧
       (envs.foldl update_data s).battery_list = none ∧
       (envs.foldl update_data s).data.list_of_batteries = none) := by
  induction envs with
  | nil => exact fun s h1 h2 h3 => ⟨h1, h2, h3⟩
  | cons env rest ih =>
      intro s h1 h2 h3
      apply ih
      · rw [update_data_battery_manager]; exact h1
      · rw [update_data_battery_list]; exact h2
      · rw [update_data_batteries]; simp [h1, h3]

/-- C8: if the collector starts with no battery handle and the battery
enumeration during `init` fails (no manager, failed device query, or an empty
device list), then battery reporting stays disabled for the whole process
lifetime: after `init` and any sequence of further cycles, the handle, the
device list and the battery snapshot field are all still absent. -/
theorem claim_c8_battery_failure (st : DataCollector) (tm : ℕ)
    (e : Option (Manager × Option (List Battery))) (seed_env : UpdateEnv)
    (hmanager : st.battery_manager = none) (hlist : st.battery_list = none)
    (hdata : st.data.list_of_batteries = none)
    (hfail : ∀ bm bl, e = some (bm, some bl) → bl = [])
    (envs : List UpdateEnv) :
    (envs.foldl update_data (init st tm e seed_env)).battery_manager = none ∧
    (envs.foldl update_data (init st tm e seed_env)).battery_list = none ∧
    (envs.foldl update_data
      (init st tm e seed_env)).data.list_of_batteries = none := by
  have hbs : battery_startup { st with mem_total_kb := tm } e =
      { st with mem_total_kb := tm } := by
    unfold battery_startup
    split
    · rcases e with _ | ⟨m, bl⟩
      · rfl
      · rcases bl with _ | l
        · rfl
        · have hl : l = [] := hfail m l rfl
          subst hl
          rfl
    · rfl
  have hinit : init st tm e seed_env =
      { seed_state st tm e seed_env with
          data := (seed_state st tm e seed_env).data.cleanup } := rfl
  have h1 : (init st tm e seed_env).battery_manager = none := by
    rw [hinit]
    show (seed_state st tm e seed_env).battery_manager = none
    unfold seed_state
    rw [update_data_battery_manager, hbs]
    exact hmanager
  have h2 : (init st tm e seed_env).battery_list = none := by
    rw [hinit]
    show (seed_state st tm e seed_env).battery_list = none
    unfold seed_state
    rw [update_data_battery_list, hbs]
    exact hlist
  have h3 : (init st tm e seed_env).data.list_of_batteries = none := by
    rw [hinit]
    show ((seed_state st tm e seed_env).data.cleanup).list_of_batteries = none
    rw [cleanup_eq]
    show (seed_state st tm e seed_env).data.list_of_batteries = none
    unfold seed_state
    rw [update_data_batteries, hbs]
    simp [hmanager, hdata]
  exact battery_none_foldl envs _ h1 h2 h3

/-- Witness for C8: battery monitoring enabled, manager obtained but the
device list comes back empty; after `init` and one further cycle the battery
field is still absent. -/
theorem claim_c8_witness :
    ([base_env].foldl update_data
      (init base_st 4096 (some (⟨0⟩, some [])) base_env)).battery_manager = none ∧
    ([base_env].foldl update_data
      (init base_st 4096 (some (⟨0⟩, some [])) base_env)).data.list_of_batteries
      = none := by
  have h := claim_c8_battery_failure base_st 4096 (some (⟨0⟩, some []))
    base_env rfl rfl rfl
    (by intro bm bl hbl; simp at hbl; exact hbl.2) [base_env]
  exact ⟨h.1, h.2.2⟩

/-- C10: in every cycle the battery snapshot field is assigned exactly when
both the cached manager handle and the cached device list are present; they
are written only together during `init`'s bootstrap and never by
`update_data`; and the `use_battery` active-domain flag is not consulted
during `update_data`, so flipping it after `init` neither starts nor stops
battery harvesting. -/
theorem claim_c10_battery_flag (st : DataCollector) (env : UpdateEnv) (tm : ℕ)
    (e : Option (Manager × Option (List Battery))) (seed_env : UpdateEnv) :
    (∀ bm bl, st.battery_manager = some bm → st.battery_list = some bl →
      (update_data st env).data.list_of_batteries =
        some (refresh_batteries bm bl env.battery_sample)) ∧
    (st.battery_manager = none ∨ st.battery_list = none →
      (update_data st env).data.list_of_batteries = st.data.list_of_batteries) ∧
    (update_data st env).battery_manager = st.battery_manager ∧
    (update_data st env).battery_list = st.battery_list ∧
    (∀ b, (update_data (set_collected_data st
        { st.widgets_to_harvest with use_battery := b })
          env).data.list_of_batteries =
      (update_data st env).data.list_of_batteries) ∧
    (st.battery_manager = none → st.battery_list = none →
      ((init st tm e seed_env).battery_manager.isSome ↔
        (init st tm e seed_env).battery_list.isSome)) := by
  refine ⟨?_, ?_, update_data_battery_manager st env,
    update_data_battery_list st env, ?_, ?_⟩
  · intro bm bl h1 h2
    rw [update_data_batteries]
    simp [h1, h2]
  · intro h
    rw [update_data_batteries]
    rcases h with h | h
    · simp [h]
    · rcases hm : st.battery_manager with _ | m <;> simp [h, hm]
  · intro b
    simp [set_collected_data, update_data_batteries]
  · intro h1 h2
    have hinit : init st tm e seed_env =
        { seed_state st tm e seed_env with
            data := (seed_state st tm e seed_env).data.cleanup } := rfl
    rw [hinit]
    show ((seed_state st tm e seed_env).battery_manager.isSome ↔
      (seed_state st tm e seed_env).battery_list.isSome)
    unfold seed_state
    rw [update_data_battery_manager, update_data_battery_list]
    rcases battery_startup_cases { st with mem_total_kb := tm } e with
      hb | ⟨m, l, hne, hb⟩ <;> rw [hb] <;> simp [h1, h2]

/-- A collector that holds a battery handle and a one-device list. -/
def battery_st : DataCollector :=
  { base_st with battery_manager := some ⟨0⟩, battery_list := some [⟨1⟩] }

/-- Witness for C10: with handle and list present the battery field is
assigned; with the default empty handles it stays absent. -/
theorem claim_c10_witness :
    (update_data battery_st base_env).data.list_of_batteries
      = some [{ charge_percent := 50 }] ∧
    (update_data base_st base_env).data.list_of_batteries = none := by
  have hB := claim_c10_battery_flag battery_st base_env 0 none base_env
  have hN := claim_c10_battery_flag base_st base_env 0 none base_env
  exact ⟨(hB.1 ⟨0⟩ [⟨1⟩] rfl rfl).trans rfl, (hN.2.1 (Or.inl rfl)).trans rfl⟩

end Harvester
